import Mathlib

/-!
Verification of the authentication/session layer of the Reddit API wrapper.

The development shallowly embeds the Python sources:
  - api_wrapper/jwt_utils.py   (Session-Token codec, class TokenManager)
  - api_wrapper/auth.py        (client cache and request authenticators)
  - api_wrapper/auth_endpoints.py and api_wrapper/auth_endpoints_backup.py
    (authorization flows and token validation)

Machine-level conventions: instants are natural-number seconds; the payload of
a JWT is an association list from claim names to JSON values; the signature of
an encoded token is represented by the secret that produced it, so that
signature verification is equality of secrets.  Network calls made through the
asyncpraw library are oracles: each flow takes the outcome of every awaited
call as an explicit argument.
-/

/-- A JSON value as it occurs in a JWT payload: a string or an integer. -/
inductive JValue
  | str : String → JValue
  | num : Nat → JValue
deriving DecidableEq

/-- A JWT payload: the dict passed to jose's encode, as an association list. -/
abbrev Payload := List (String × JValue)

/-- An encoded JWT.  The signature is modelled by the secret used to sign. -/
structure EncodedJwt where
  payload : Payload
  sig : String
deriving DecidableEq

/-- Errors of the jose library relevant here (subclasses of JWTError). -/
inductive JWTError
  | expiredSignature
  | invalidSignature
deriving DecidableEq

/-- An HTTP error raised by a handler (fastapi.HTTPException). -/
structure HTTPException where
  status_code : Nat
  detail : String
deriving DecidableEq

/-- jwt_utils.py line 12: the process-wide signing secret (default value). -/
def SECRET_KEY : String := "your-secret-key-change-in-production"

/-- jwt_utils.py line 14: default token lifetime in minutes (12 hours). -/
def ACCESS_TOKEN_EXPIRE_MINUTES : Nat := 720

/-- jose's jwt.encode: sign the payload with the secret. -/
def jwtEncode (data : Payload) (secret : String) : EncodedJwt :=
  { payload := data, sig := secret }

/-- Modelled from the spec: the jose library's jwt.decode is third-party code
not under src/.  Per the spec, verification "fails with InvalidTokenError if
the signature is invalid or the expiry claim has passed", tokens "expire at an
absolute instant set at creation", and verification fails "for any instant at
or after issuance+T".  Decoding therefore checks the signature, then rejects
when the current instant has reached the exp claim. -/
def jwtDecode (tok : EncodedJwt) (secret : String) (now : Nat) : Except JWTError Payload :=
  if tok.sig = secret then
    match tok.payload.lookup "exp" with
    | some (.num e) => if e ≤ now then .error .expiredSignature else .ok tok.payload
    | _ => .ok tok.payload
  else .error .invalidSignature

/-- Python dict update with a single key: replace the value if the key is
present, otherwise append the binding. -/
def setClaim (data : Payload) (k : String) (v : JValue) : Payload :=
  if (data.lookup k).isSome then
    data.map (fun kv => if kv.1 = k then (kv.1, v) else kv)
  else
    data ++ [(k, v)]

namespace TokenManager

/-- jwt_utils.py lines 57-61: the generic 401 raised by verify_token. -/
def credentials_exception : HTTPException :=
  { status_code := 401, detail := "Could not validate credentials" }

/-- jwt_utils.py lines 20-41 (TokenManager.create_access_token): merge an
absolute expiry claim into the payload and sign.  The expiry is now plus the
supplied delta, defaulting to ACCESS_TOKEN_EXPIRE_MINUTES minutes. -/
def create_access_token (data : Payload) (now : Nat) (expires_delta : Option Nat) : EncodedJwt :=
  let expire := now + (match expires_delta with
    | some d => d
    | none => ACCESS_TOKEN_EXPIRE_MINUTES * 60)
  jwtEncode (setClaim data "exp" (.num expire)) SECRET_KEY

/-- jwt_utils.py lines 43-67 (TokenManager.verify_token): decode and return
the payload; any JWTError whatsoever becomes the one generic 401. -/
def verify_token (tok : EncodedJwt) (now : Nat) : Except HTTPException Payload :=
  match jwtDecode tok SECRET_KEY now with
  | .ok payload => .ok payload
  | .error _ => .error credentials_exception

/-- jwt_utils.py lines 69-99 (TokenManager.create_reddit_token): the
legacy-credential issuer, token_type "reddit_access". -/
def create_reddit_token (client_id client_secret username password user_agent : String)
    (now : Nat) : EncodedJwt :=
  create_access_token
    [("reddit_client_id", .str client_id),
     ("reddit_client_secret", .str client_secret),
     ("reddit_username", .str username),
     ("reddit_password", .str password),
     ("reddit_user_agent", .str user_agent),
     ("token_type", .str "reddit_access")] now none

/-- jwt_utils.py lines 101-131 (TokenManager.create_refresh_token): the
refresh-credential issuer, token_type "reddit_refresh_access". -/
def create_refresh_token (client_id client_secret user_agent refresh_token : String)
    (now : Nat) : EncodedJwt :=
  create_access_token
    [("reddit_client_id", .str client_id),
     ("reddit_client_secret", .str client_secret),
     ("reddit_user_agent", .str user_agent),
     ("reddit_refresh_token", .str refresh_token),
     ("token_type", .str "reddit_refresh_access")] now none

/-- First required field missing from the payload, if any (the for-loop over
required_fields raises at the first absent key). -/
def firstMissing (payload : Payload) : List String → Option String
  | [] => none
  | f :: rest =>
    if (payload.lookup f).isSome then firstMissing payload rest else some f

/-- Claim access payload[k] (total here; callers check presence first). -/
def getClaim (payload : Payload) (k : String) : JValue :=
  (payload.lookup k).getD (.str "")

/-- jwt_utils.py lines 179-219 (TokenManager.extract_reddit_credentials):
verify, require token_type "reddit_access", require the five legacy fields,
return them as a credential dict. -/
def extract_reddit_credentials (tok : EncodedJwt) (now : Nat) :
    Except HTTPException (List (String × JValue)) :=
  match verify_token tok now with
  | .error e => .error e
  | .ok payload =>
    if payload.lookup "token_type" = some (.str "reddit_access") then
      match firstMissing payload
        ["reddit_client_id", "reddit_client_secret", "reddit_username",
         "reddit_password", "reddit_user_agent"] with
      | some f => .error { status_code := 401, detail := "Token missing required field: " ++ f }
      | none => .ok
          [("client_id", getClaim payload "reddit_client_id"),
           ("client_secret", getClaim payload "reddit_client_secret"),
           ("username", getClaim payload "reddit_username"),
           ("password", getClaim payload "reddit_password"),
           ("user_agent", getClaim payload "reddit_user_agent")]
    else .error { status_code := 401, detail := "Invalid token type" }

/-- jwt_utils.py lines 133-177 (TokenManager.extract_refresh_token_credentials):
verify; on token_type "reddit_refresh_access" require the four refresh fields
and return them; on token_type "reddit_access" fall back to the legacy
extractor; otherwise raise 401 "Invalid token type". -/
def extract_refresh_token_credentials (tok : EncodedJwt) (now : Nat) :
    Except HTTPException (List (String × JValue)) :=
  match verify_token tok now with
  | .error e => .error e
  | .ok payload =>
    if payload.lookup "token_type" = some (.str "reddit_refresh_access") then
      match firstMissing payload
        ["reddit_client_id", "reddit_client_secret", "reddit_user_agent",
         "reddit_refresh_token"] with
      | some f => .error { status_code := 401, detail := "Token missing required field: " ++ f }
      | none => .ok
          [("client_id", getClaim payload "reddit_client_id"),
           ("client_secret", getClaim payload "reddit_client_secret"),
           ("user_agent", getClaim payload "reddit_user_agent"),
           ("refresh_token", getClaim payload "reddit_refresh_token")]
    else if payload.lookup "token_type" = some (.str "reddit_access") then
      extract_reddit_credentials tok now
    else
      .error { status_code := 401, detail := "Invalid token type" }

end TokenManager

/-! ## Client cache and request authenticators (api_wrapper/auth.py) -/

/-- Python string slicing s[:n] (by code point, as Python slices by character). -/
def pyTake (n : Nat) (s : String) : String :=
  String.mk (s.data.take n)

/-- Python truthiness of an Optional[str]: None and the empty string are falsy. -/
def truthy : Option String → Bool
  | none => false
  | some s => !(s == "")

/-- A platform client handle (asyncpraw.Reddit instance).  Object identity is
modelled by a numeric id: two handles are the same instance iff ids agree. -/
abbrev Handle := Nat

/-- The process-wide _reddit_client_cache dict (auth.py line 14). -/
abbrev ClientCache := String → Option Handle

def cacheInsert (c : ClientCache) (k : String) (v : Handle) : ClientCache :=
  fun k' => if k' = k then some v else c k'

def cacheErase (c : ClientCache) (k : String) : ClientCache :=
  fun k' => if k' = k then none else c k'

/-- Outcome of the liveness probe await reddit.user.me(): a user, None, or a
raised exception carrying a message. -/
inductive ProbeResult
  | found (username : String)
  | noneUser
  | raises (msg : String)
deriving DecidableEq

/-- How a fresh client was constructed: with the header-supplied app
credentials, or in token-only mode. -/
inductive ConstructionMode
  | credentialed
  | tokenOnly
deriving DecidableEq

/-- Instrumented result of one authenticator invocation: the HTTP outcome, the
cache afterwards, how many liveness probes ran, and whether (and how) a fresh
client was constructed. -/
structure AuthResult where
  result : Except HTTPException Handle
  cache : ClientCache
  probes : Nat
  constructed : Option ConstructionMode

/-- auth.py lines 54-58: cache key of get_reddit_client_with_headers — the
first 16 characters of the bearer token, plus the first 8 characters of the
X-Reddit-Client-Id header when that header is truthy. -/
def cache_key_with_headers (access_token : String) (x_reddit_client_id : Option String) : String :=
  if truthy x_reddit_client_id then
    "reddit_" ++ pyTake 16 access_token ++ "_" ++ pyTake 8 (x_reddit_client_id.getD "")
  else
    "reddit_" ++ pyTake 16 access_token

/-- auth.py lines 154-155: cache key of get_reddit_client. -/
def cache_key_plain (access_token : String) : String :=
  "reddit_token_" ++ pyTake 16 access_token

/-- auth.py lines 77-118 and 174-200: construct a fresh client, probe it; on
success cache it under the key and return it; on a None user or a raised
probe, fail with 401 (the fresh handle is closed; nothing is cached). -/
def construct_and_probe (probe : Handle → ProbeResult) (fresh : Handle)
    (cache_key : String) (cache : ClientCache) (probesSoFar : Nat)
    (mode : ConstructionMode) : AuthResult :=
  match probe fresh with
  | .found _ =>
    { result := .ok fresh, cache := cacheInsert cache cache_key fresh,
      probes := probesSoFar + 1, constructed := some mode }
  | .noneUser =>
    { result := .error ⟨401, "Failed to authenticate with Reddit API - invalid token"⟩,
      cache := cache, probes := probesSoFar + 1, constructed := some mode }
  | .raises m =>
    { result := .error ⟨401, "Reddit authentication failed: " ++ m⟩,
      cache := cache, probes := probesSoFar + 1, constructed := some mode }

/-- auth.py lines 132-211 (get_reddit_client): look the key up; on a hit,
probe the cached handle and return it if a user comes back, otherwise evict
and fall through to fresh construction in token-only mode. -/
def get_reddit_client (probe : Handle → ProbeResult) (fresh : Handle)
    (access_token : String) (cache : ClientCache) : AuthResult :=
  let ck := cache_key_plain access_token
  match cache ck with
  | some reddit =>
    match probe reddit with
    | .found _ => { result := .ok reddit, cache := cache, probes := 1, constructed := none }
    | _ => construct_and_probe probe fresh ck (cacheErase cache ck) 1 .tokenOnly
  | none => construct_and_probe probe fresh ck cache 0 .tokenOnly

/-- auth.py lines 17-129 (get_reddit_client_with_headers): same structure, but
the key may incorporate the client-id header, and construction is credentialed
exactly when both the client-id and client-secret headers are truthy. -/
def get_reddit_client_with_headers (probe : Handle → ProbeResult) (fresh : Handle)
    (access_token : String)
    (x_reddit_client_id x_reddit_client_secret x_reddit_user_agent : Option String)
    (cache : ClientCache) : AuthResult :=
  let ck := cache_key_with_headers access_token x_reddit_client_id
  let mode := if truthy x_reddit_client_id && truthy x_reddit_client_secret then
    ConstructionMode.credentialed else ConstructionMode.tokenOnly
  match cache ck with
  | some reddit =>
    match probe reddit with
    | .found _ => { result := .ok reddit, cache := cache, probes := 1, constructed := none }
    | _ => construct_and_probe probe fresh ck (cacheErase cache ck) 1 mode
  | none => construct_and_probe probe fresh ck cache 0 mode

/-! ## Token validation endpoint (api_wrapper/auth_endpoints.py, POST /auth/validate) -/

/-- The fields of the authenticated user object read by validate_token. -/
structure RedditUser where
  name : String
  id : String
  created_utc : Int
  comment_karma : Int
  link_karma : Int
deriving DecidableEq

/-- Outcome of await reddit.user.me() in validate_token: a user object, None,
or a raised exception carrying its message. -/
inductive UserResult
  | user (u : RedditUser)
  | noUser
  | raises (msg : String)
deriving DecidableEq

/-- auth_endpoints.py lines 131-151: the response schema of /auth/validate. -/
structure TokenValidationResponse where
  valid : Bool
  username : Option String
  user_id : Option String
  created_utc : Option Int
  comment_karma : Option Int
  link_karma : Option Int
  error : Option String
deriving DecidableEq

/-- The message of the AttributeError Python raises when user is None and the
handler evaluates user.name. -/
def noneTypeNameError : String := "'NoneType' object has no attribute 'name'"

/-- auth_endpoints.py lines 286-307, the try-block of validate_token: construct
the client (oracle: may raise), set the token, probe the user, build the
valid:true response.  Exceptions propagate as the error case. -/
def validate_token_try (construct : Except String Unit) (me : UserResult) :
    Except String TokenValidationResponse :=
  match construct with
  | .error m => .error m
  | .ok _ =>
    match me with
    | .user u => .ok
        { valid := true, username := some u.name, user_id := some u.id,
          created_utc := some u.created_utc, comment_karma := some u.comment_karma,
          link_karma := some u.link_karma, error := none }
    | .noUser => .error noneTypeNameError
    | .raises m => .error m

/-- auth_endpoints.py lines 278-316 (validate_token): run the try-block; the
except-handler converts any exception into a valid:false data response with
the exception text as the error field; never an HTTP error. -/
def validate_token (construct : Except String Unit) (me : UserResult) :
    Except HTTPException TokenValidationResponse :=
  match validate_token_try construct me with
  | .ok r => .ok r
  | .error m => .ok
      { valid := false, username := none, user_id := none, created_utc := none,
        comment_karma := none, link_karma := none, error := some m }

/-! ## Authorization flows and transient-client closure -/

/-- auth_endpoints_backup.py lines 73-92: token response carrying a Session
Token (the JWT minted by the flow). -/
structure TokenResponse where
  access_token : EncodedJwt
  token_type : String
  expires_in : Nat
  reddit_username : String
deriving DecidableEq

/-- auth_endpoints.py lines 73-92: token response of the active callback,
carrying the upstream platform tokens directly. -/
structure ActiveTokenResponse where
  access_token : String
  refresh_token : Option String
  token_type : String
  expires_in : Nat
  scope : String
  reddit_username : String
deriving DecidableEq

/-- Result of one flow invocation: the HTTP outcome, and whether the transient
client handle the flow constructed was closed before returning. -/
structure FlowResult (α : Type) where
  outcome : Except HTTPException α
  closed : Bool

/-- auth_endpoints_backup.py lines 486-550 (oauth2_callback): construct a
client, exchange the code (oracle authorize: refresh token, falsy value, or a
raised exception), probe the user, close, mint a refresh-credential Session
Token.  When authorize raises, control jumps to the generic except-handler
at lines 546-550 and the client is never closed. -/
def oauth2_callback_backup (authorize : Except String (Option String))
    (me : Except String String) (client_id client_secret user_agent : String)
    (now : Nat) : FlowResult TokenResponse :=
  match authorize with
  | .error m =>
    { outcome := .error ⟨500, "OAuth2 callback failed: " ++ m⟩, closed := false }
  | .ok rt =>
    if truthy rt then
      match me with
      | .error m =>
        { outcome := .error ⟨400, "Failed to verify authorization: " ++ m⟩, closed := true }
      | .ok username =>
        { outcome := .ok
            { access_token := TokenManager.create_refresh_token client_id client_secret
                user_agent (rt.getD "") now,
              token_type := "bearer", expires_in := 43200, reddit_username := username },
          closed := true }
    else
      { outcome := .error ⟨400, "Failed to obtain refresh token from authorization code"⟩,
        closed := true }

/-- auth_endpoints.py lines 188-230 (oauth2_callback, the mounted version):
same flow, but the finally-block closes the client on every exit path, and
errors surface as RedditAPIException (HTTP 400). -/
def oauth2_callback (authorize : Except String Unit) (me : Except String (Option String))
    (upstream_access_token : String) (upstream_refresh_token : Option String)
    (scopes : List String) : FlowResult ActiveTokenResponse :=
  match authorize with
  | .error m =>
    { outcome := .error ⟨400, "Failed to exchange code for tokens: " ++ m⟩, closed := true }
  | .ok _ =>
    match me with
    | .error m =>
      { outcome := .error ⟨400, "Failed to exchange code for tokens: " ++ m⟩, closed := true }
    | .ok user =>
      { outcome := .ok
          { access_token := upstream_access_token,
            refresh_token := upstream_refresh_token, token_type := "bearer",
            expires_in := 3600, scope := String.intercalate " " scopes,
            reddit_username := match user with | some n => n | none => "unknown" },
        closed := true }

/-- auth_endpoints_backup.py lines 553-607 (login_with_refresh_token):
construct, probe (closing on failure), close, mint the Session Token. -/
def login_with_refresh_token (me : Except String String)
    (client_id client_secret user_agent refresh_token : String) (now : Nat) :
    FlowResult TokenResponse :=
  match me with
  | .error m =>
    { outcome := .error ⟨401, "Invalid refresh token: " ++ m⟩, closed := true }
  | .ok username =>
    { outcome := .ok
        { access_token := TokenManager.create_refresh_token client_id client_secret
            user_agent refresh_token now,
          token_type := "bearer", expires_in := 43200, reddit_username := username },
      closed := true }

/-! ## Authorization URL generation (api_wrapper/auth_endpoints.py lines 154-185) -/

/-- The characters urllib.parse.quote never encodes (letters, digits, _.-~). -/
def SAFE_CHARS : List Char :=
  "abcdefghijklmnopqrstuvwxyzABCDEFGHIJKLMNOPQRSTUVWXYZ0123456789_.-~".toList

def HEX_DIGITS : List Char := "0123456789ABCDEF".toList

def hexDigit (n : Nat) : Char := HEX_DIGITS.getD (n % 16) '0'

/-- urllib.parse.quote_plus on one character (ASCII scope, as used here):
safe characters pass through, space becomes +, the rest percent-encode. -/
def quoteChar (c : Char) : List Char :=
  if c ∈ SAFE_CHARS then [c]
  else if c = ' ' then ['+']
  else ['%', hexDigit (c.toNat / 16), hexDigit c.toNat]

def quote_plus (s : String) : String :=
  String.mk ((s.data.map quoteChar).flatten)

/-- Python str.join with separator "&". -/
def joinAmp : List String → String
  | [] => ""
  | [p] => p
  | p :: rest => p ++ "&" ++ joinAmp rest

/-- urllib.parse.urlencode: quote_plus each key and value, join k=v with &. -/
def urlencode (params : List (String × String)) : String :=
  joinAmp (params.map (fun kv => quote_plus kv.1 ++ "=" ++ quote_plus kv.2))

/-- The base64url alphabet used by secrets.token_urlsafe. -/
def B64_ALPHABET : List Char :=
  "ABCDEFGHIJKLMNOPQRSTUVWXYZabcdefghijklmnopqrstuvwxyz0123456789-_".toList

def b64char (i : Nat) : Char := B64_ALPHABET.getD (i % 64) 'A'

/-- Unpadded base64url encoding of a byte list (values < 256). -/
def b64encode : List Nat → List Char
  | a :: b :: c :: rest =>
    b64char (a / 4) :: b64char ((a % 4) * 16 + b / 16) ::
    b64char ((b % 16) * 4 + c / 64) :: b64char (c % 64) :: b64encode rest
  | [a, b] => [b64char (a / 4), b64char ((a % 4) * 16 + b / 16), b64char ((b % 16) * 4)]
  | [a] => [b64char (a / 4), b64char ((a % 4) * 16)]
  | [] => []

/-- secrets.token_urlsafe: base64url of nbytes random bytes, padding stripped
(the randomness is the byte-list argument). -/
def token_urlsafe (randomBytes : List Nat) : String :=
  String.mk (b64encode randomBytes)

/-- auth_endpoints.py lines 13-34: request schema of /auth/authorize-url. -/
structure AuthorizationURLRequest where
  client_id : String
  client_secret : String
  redirect_uri : String
  user_agent : String
  scopes : List String
  state : Option String
  duration : String

/-- auth_endpoints.py lines 37-48: response schema of /auth/authorize-url. -/
structure AuthorizationURLResponse where
  authorization_url : String
  state : String
deriving DecidableEq

/-- Python x or y on an Optional[str]: first truthy value. -/
def pyOr (a : Option String) (b : String) : String :=
  match a with
  | some s => if s = "" then b else s
  | none => b

/-- auth_endpoints.py lines 154-182 (get_authorization_url): generate a state
when none was supplied (generated_state stands for secrets.token_urlsafe(32)),
urlencode the six parameters in order, and return the URL plus the state. -/
def get_authorization_url (request : AuthorizationURLRequest)
    (generated_state : String) : AuthorizationURLResponse :=
  let state := pyOr request.state generated_state
  let params := [("client_id", request.client_id), ("response_type", "code"),
    ("state", state), ("redirect_uri", request.redirect_uri),
    ("duration", request.duration), ("scope", String.intercalate " " request.scopes)]
  let authorization_url := "https://www.reddit.com/api/v1/authorize" ++ "?" ++ urlencode params
  { authorization_url := authorization_url, state := state }

/-! ## Concrete oracles used by witnesses -/

/-- A probe under which handle 5 is dead and every other handle is live. -/
def witnessProbeDead : Handle → ProbeResult :=
  fun h => if h = 5 then .raises "dead connection" else .found "someone"

/-- A probe under which every handle is live. -/
def witnessProbeLive : Handle → ProbeResult :=
  fun _ => .found "someone"

/-- A cache holding stale handle 5 under the key of bearer "t". -/
def witnessCacheStale : ClientCache :=
  fun k => if k = "reddit_token_t" then some 5 else none

/-- A cache holding live handle 7 under the key of bearer "t". -/
def witnessCacheLive : ClientCache :=
  fun k => if k = "reddit_token_t" then some 7 else none

/-- The concrete request of the authorization-URL claim: client_id "cid",
redirect_uri "http://localhost:8080", scopes ["*"], duration "permanent", and
no state supplied (client secret and user agent do not affect the URL). -/
def c8Request (csec ua : String) : AuthorizationURLRequest :=
  { client_id := "cid", client_secret := csec,
    redirect_uri := "http://localhost:8080", user_agent := ua,
    scopes := ["*"], state := none, duration := "permanent" }

/-! ## Shared lemmas about payload lookup and the codec -/

theorem lookup_append_of_none {k : String} {v : JValue} (p : Payload)
    (h : p.lookup k = none) : (p ++ [(k, v)]).lookup k = some v := by
  induction p with
  | nil => simp [List.lookup]
  | cons kv rest ih =>
    rw [List.cons_append, List.lookup] at *
    cases hkk : (k == kv.1) with
    | true => simp only [hkk] at h; exact Option.noConfusion h
    | false => simp only [hkk] at h ⊢; exact ih h

open TokenManager in
theorem verify_create (data : Payload) (t E : Nat)
    (hexp : data.lookup "exp" = none) :
    verify_token (jwtEncode (setClaim data "exp" (.num E)) SECRET_KEY) t =
      if E ≤ t then .error credentials_exception else .ok (data ++ [("exp", .num E)]) := by
  have hset : setClaim data "exp" (JValue.num E) = data ++ [("exp", JValue.num E)] := by
    simp [setClaim, hexp]
  by_cases hEt : E ≤ t <;>
    simp [verify_token, jwtDecode, jwtEncode, hset, lookup_append_of_none data hexp, hEt]

/-! ## Claims about the Session-Token codec -/

/-- C1, counterexample.  Applying the refresh-credential extractor to a token
issued via the legacy-credential path (token_type "reddit_access") does NOT
fail with the 401 "Invalid token type" error: at this concrete legacy token it
returns the full legacy credential dict.  The claim that it "fails with
InvalidTokenTypeError and never returns credential data" is false on the code
(jwt_utils.py lines 169-171 fall back to the legacy extractor). -/
theorem C1_fallback_counterexample :
    TokenManager.extract_refresh_token_credentials
      (TokenManager.create_reddit_token "i" "s" "u" "p" "a" 0) 0 =
      .ok [("client_id", .str "i"), ("client_secret", .str "s"),
           ("username", .str "u"), ("password", .str "p"), ("user_agent", .str "a")] := by
  rfl

/-- C1, amended.  For every unexpired Session Token issued via the
legacy-credential path, the refresh-credential extractor falls back to the
legacy extractor and returns the full five-field legacy credential set (never
partial data); the 401 "Invalid token type" error is raised only when the
token_type claim is neither "reddit_refresh_access" nor "reddit_access". -/
theorem C1_legacy_fallback (cid csec un pw ua : String) (now t : Nat)
    (h : t < now + 43200) :
    TokenManager.extract_refresh_token_credentials
        (TokenManager.create_reddit_token cid csec un pw ua now) t =
      .ok [("client_id", .str cid), ("client_secret", .str csec),
           ("username", .str un), ("password", .str pw), ("user_agent", .str ua)] ∧
    (∀ (tok : EncodedJwt) (payload : Payload) (o : Option JValue),
      TokenManager.verify_token tok t = .ok payload →
      payload.lookup "token_type" = o →
      o ≠ some (.str "reddit_refresh_access") →
      o ≠ some (.str "reddit_access") →
      TokenManager.extract_refresh_token_credentials tok t =
        .error { status_code := 401, detail := "Invalid token type" }) := by
  constructor
  · simp [TokenManager.extract_refresh_token_credentials,
      TokenManager.create_reddit_token, TokenManager.create_access_token,
      TokenManager.verify_token, jwtDecode, jwtEncode, setClaim, SECRET_KEY,
      ACCESS_TOKEN_EXPIRE_MINUTES, List.lookup, TokenManager.firstMissing,
      TokenManager.getClaim, TokenManager.extract_reddit_credentials, Nat.not_le.mpr h]
  · intro tok payload o hv hl h1 h2
    simp [TokenManager.extract_refresh_token_credentials, hv, hl, h1, h2]

/-- C1, witness for the amended theorem at a concrete legacy token. -/
theorem C1_legacy_fallback_witness :
    TokenManager.extract_refresh_token_credentials
        (TokenManager.create_reddit_token "i" "s" "u" "p" "a" 7) 7 =
      .ok [("client_id", .str "i"), ("client_secret", .str "s"),
           ("username", .str "u"), ("password", .str "p"), ("user_agent", .str "a")] :=
  (C1_legacy_fallback "i" "s" "u" "p" "a" 7 7 (by omega)).1

/-- C3.  Round-trip law: issuing a Session Token for a Delegated Credential
Set and extracting with the matching extractor returns exactly the input
credential set, field for field, in both the refresh shape and the legacy
shape (for any extraction instant within the token's validity window). -/
theorem C3_round_trip (cid csec ua rt un pw : String) (now t : Nat)
    (h : t < now + 43200) :
    TokenManager.extract_refresh_token_credentials
        (TokenManager.create_refresh_token cid csec ua rt now) t =
      .ok [("client_id", .str cid), ("client_secret", .str csec),
           ("user_agent", .str ua), ("refresh_token", .str rt)] ∧
    TokenManager.extract_reddit_credentials
        (TokenManager.create_reddit_token cid csec un pw ua now) t =
      .ok [("client_id", .str cid), ("client_secret", .str csec),
           ("username", .str un), ("password", .str pw), ("user_agent", .str ua)] := by
  constructor
  · simp [TokenManager.extract_refresh_token_credentials,
      TokenManager.create_refresh_token, TokenManager.create_access_token,
      TokenManager.verify_token, jwtDecode, jwtEncode, setClaim, SECRET_KEY,
      ACCESS_TOKEN_EXPIRE_MINUTES, List.lookup, TokenManager.firstMissing,
      TokenManager.getClaim, Nat.not_le.mpr h]
  · simp [TokenManager.extract_reddit_credentials,
      TokenManager.create_reddit_token, TokenManager.create_access_token,
      TokenManager.verify_token, jwtDecode, jwtEncode, setClaim, SECRET_KEY,
      ACCESS_TOKEN_EXPIRE_MINUTES, List.lookup, TokenManager.firstMissing,
      TokenManager.getClaim, Nat.not_le.mpr h]

/-- C3, witness at a concrete credential set. -/
theorem C3_round_trip_witness :
    TokenManager.extract_refresh_token_credentials
        (TokenManager.create_refresh_token "i" "s" "a" "r" 5) 5 =
      .ok [("client_id", .str "i"), ("client_secret", .str "s"),
           ("user_agent", .str "a"), ("refresh_token", .str "r")] :=
  (C3_round_trip "i" "s" "a" "r" "u" "p" 5 5 (by omega)).1

/-- C4, counterexample.  At or after expiry, verify_token does fail, but with
the one generic 401 "Could not validate credentials" — the identical error it
returns for a token whose signature is invalid.  The failure is therefore not
expiry-specific (jwt_utils.py lines 57-67 collapse every JWTError into the
same credentials_exception). -/
theorem C4_generic_error_counterexample :
    TokenManager.verify_token
        (TokenManager.create_access_token [("sub", .str "u")] 0 none) 43200 =
      .error TokenManager.credentials_exception ∧
    TokenManager.verify_token { payload := [("sub", .str "u")], sig := "other" } 43200 =
      .error TokenManager.credentials_exception ∧
    TokenManager.credentials_exception.detail = "Could not validate credentials" :=
  ⟨rfl, rfl, rfl⟩

/-- C4, amended.  For every payload issued as a Session Token at instant `now`
with ttl T (default 43200 seconds), verify_token succeeds at any instant
strictly before now+T and returns the payload (with its expiry claim), and at
any instant at or after now+T it fails — with the generic 401 "Could not
validate credentials" error shared by all decode failures, not an
expiry-specific one. -/
theorem C4_expiry_window (data : Payload) (now t : Nat) (d : Option Nat)
    (hexp : data.lookup "exp" = none) :
    (t < now + (match d with | some x => x | none => 43200) →
      TokenManager.verify_token (TokenManager.create_access_token data now d) t =
        .ok (data ++ [("exp", .num (now + (match d with | some x => x | none => 43200)))])) ∧
    (now + (match d with | some x => x | none => 43200) ≤ t →
      TokenManager.verify_token (TokenManager.create_access_token data now d) t =
        .error TokenManager.credentials_exception) := by
  cases d with
  | none =>
    simp only [TokenManager.create_access_token, ACCESS_TOKEN_EXPIRE_MINUTES]
    rw [verify_create data t (now + 720 * 60) hexp]
    constructor
    · intro hlt; rw [if_neg (by omega)]
    · intro hge; rw [if_pos (by omega)]
  | some x =>
    simp only [TokenManager.create_access_token]
    rw [verify_create data t (now + x) hexp]
    constructor
    · intro hlt; rw [if_neg (by omega)]
    · intro hge; rw [if_pos (by omega)]

/-- C4, witness: a token issued at instant 0 with the default ttl verifies at
instant 100 and returns the payload with its expiry claim. -/
theorem C4_expiry_window_witness :
    TokenManager.verify_token
        (TokenManager.create_access_token [("sub", .str "u")] 0 none) 100 =
      .ok [("sub", .str "u"), ("exp", .num 43200)] :=
  (C4_expiry_window [("sub", .str "u")] 0 100 none rfl).1 (by decide)

/-! ## Shared lemmas about the client cache -/

theorem string_data_inj {a b : String} (h : a.data = b.data) : a = b := by
  cases a; cases b; simp_all

theorem pyTake_eq_empty_iff (n : Nat) (hn : n ≠ 0) (s : String) :
    (pyTake n s = "" ↔ s = "") := by
  constructor
  · intro h
    have hd : (s.data.take n) = [] := by
      simpa [pyTake] using congrArg String.data h
    rcases List.take_eq_nil_iff.mp hd with h1 | h1
    · exact absurd h1 hn
    · exact string_data_inj (by simp [h1])
  · intro h
    subst h
    simp [pyTake]

theorem construct_spec (probe : Handle → ProbeResult) (fresh : Handle)
    (ck : String) (cache2 : ClientCache) (n : Nat) (mode : ConstructionMode) :
    (∀ u, probe fresh = .found u →
      (construct_and_probe probe fresh ck cache2 n mode).result = .ok fresh ∧
      (construct_and_probe probe fresh ck cache2 n mode).cache ck = some fresh ∧
      (construct_and_probe probe fresh ck cache2 n mode).constructed = some mode) ∧
    ((∀ u, probe fresh ≠ .found u) →
      (∃ e, (construct_and_probe probe fresh ck cache2 n mode).result = .error e ∧
        e.status_code = 401) ∧
      (construct_and_probe probe fresh ck cache2 n mode).cache = cache2) := by
  constructor
  · intro u hu
    simp [construct_and_probe, hu, cacheInsert]
  · intro hnf
    cases hpf : probe fresh with
    | found u => exact absurd hpf (hnf u)
    | noneUser => simp [construct_and_probe, hpf]
    | raises m => simp [construct_and_probe, hpf]

theorem constructed_mode_shape (probe : Handle → ProbeResult) (fresh : Handle)
    (b : String) (cid csec cua : Option String) (cache : ClientCache) :
    (get_reddit_client_with_headers probe fresh b cid csec cua cache).constructed = none ∨
    (get_reddit_client_with_headers probe fresh b cid csec cua cache).constructed =
      some (if truthy cid && truthy csec then ConstructionMode.credentialed
        else ConstructionMode.tokenOnly) := by
  cases hck : cache (cache_key_with_headers b cid) with
  | none =>
    right
    cases hpf : probe fresh <;>
      simp [get_reddit_client_with_headers, construct_and_probe, hck, hpf]
  | some h =>
    cases hph : probe h with
    | found u => left; simp [get_reddit_client_with_headers, hck, hph]
    | noneUser =>
      right
      cases hpf : probe fresh <;>
        simp [get_reddit_client_with_headers, construct_and_probe, hck, hph, hpf]
    | raises m =>
      right
      cases hpf : probe fresh <;>
        simp [get_reddit_client_with_headers, construct_and_probe, hck, hph, hpf]

/-! ## Claims about the client cache and the request authenticators -/

/-- C5.  Cache eviction.  For either authenticator, when the cached handle
under the request's key fails its liveness probe, the call never returns the
stale handle: the entry is evicted and a fresh handle is constructed and
probed; on fresh-probe success the fresh handle is returned and cached under
the key, and on fresh-probe failure the request fails with a 401 error and no
entry remains cached under the key. -/
theorem C5_cache_eviction (probe : Handle → ProbeResult) (fresh stale : Handle)
    (tok : String) (cid csec cua : Option String) (cache : ClientCache)
    (hdead : ∀ u, probe stale ≠ .found u)
    (hfresh : fresh ≠ stale) :
    (cache (cache_key_plain tok) = some stale →
      (get_reddit_client probe fresh tok cache).result ≠ .ok stale ∧
      (∀ u, probe fresh = .found u →
        (get_reddit_client probe fresh tok cache).result = .ok fresh ∧
        (get_reddit_client probe fresh tok cache).cache (cache_key_plain tok) = some fresh) ∧
      ((∀ u, probe fresh ≠ .found u) →
        (∃ e, (get_reddit_client probe fresh tok cache).result = .error e ∧
          e.status_code = 401) ∧
        (get_reddit_client probe fresh tok cache).cache (cache_key_plain tok) = none)) ∧
    (cache (cache_key_with_headers tok cid) = some stale →
      (get_reddit_client_with_headers probe fresh tok cid csec cua cache).result ≠ .ok stale ∧
      (∀ u, probe fresh = .found u →
        (get_reddit_client_with_headers probe fresh tok cid csec cua cache).result = .ok fresh ∧
        (get_reddit_client_with_headers probe fresh tok cid csec cua cache).cache
          (cache_key_with_headers tok cid) = some fresh) ∧
      ((∀ u, probe fresh ≠ .found u) →
        (∃ e, (get_reddit_client_with_headers probe fresh tok cid csec cua cache).result =
          .error e ∧ e.status_code = 401) ∧
        (get_reddit_client_with_headers probe fresh tok cid csec cua cache).cache
          (cache_key_with_headers tok cid) = none)) := by
  constructor
  · intro hin
    have hred : get_reddit_client probe fresh tok cache =
        construct_and_probe probe fresh (cache_key_plain tok)
          (cacheErase cache (cache_key_plain tok)) 1 .tokenOnly := by
      cases hps : probe stale with
      | found u => exact absurd hps (hdead u)
      | noneUser => simp [get_reddit_client, hin, hps]
      | raises m => simp [get_reddit_client, hin, hps]
    rw [hred]
    refine ⟨?_, ?_, ?_⟩
    · cases hpf : probe fresh with
      | found u => simp [construct_and_probe, hpf, hfresh]
      | noneUser => simp [construct_and_probe, hpf]
      | raises m => simp [construct_and_probe, hpf]
    · intro u hu
      exact ⟨((construct_spec probe fresh _ _ 1 .tokenOnly).1 u hu).1,
        ((construct_spec probe fresh _ _ 1 .tokenOnly).1 u hu).2.1⟩
    · intro hnf
      obtain ⟨he, hc⟩ := (construct_spec probe fresh _ _ 1 .tokenOnly).2 hnf
      exact ⟨he, by rw [hc]; simp [cacheErase]⟩
  · intro hin
    have hred : get_reddit_client_with_headers probe fresh tok cid csec cua cache =
        construct_and_probe probe fresh (cache_key_with_headers tok cid)
          (cacheErase cache (cache_key_with_headers tok cid)) 1
          (if truthy cid && truthy csec then ConstructionMode.credentialed
            else ConstructionMode.tokenOnly) := by
      cases hps : probe stale with
      | found u => exact absurd hps (hdead u)
      | noneUser => simp [get_reddit_client_with_headers, hin, hps]
      | raises m => simp [get_reddit_client_with_headers, hin, hps]
    rw [hred]
    refine ⟨?_, ?_, ?_⟩
    · cases hpf : probe fresh with
      | found u => simp [construct_and_probe, hpf, hfresh]
      | noneUser => simp [construct_and_probe, hpf]
      | raises m => simp [construct_and_probe, hpf]
    · intro u hu
      exact ⟨((construct_spec probe fresh _ _ 1 _).1 u hu).1,
        ((construct_spec probe fresh _ _ 1 _).1 u hu).2.1⟩
    · intro hnf
      obtain ⟨he, hc⟩ := (construct_spec probe fresh _ _ 1 _).2 hnf
      exact ⟨he, by rw [hc]; simp [cacheErase]⟩

/-- C5, witness: with stale handle 5 dead in the cache under the key of
bearer "t" and fresh handle 9 live, the call returns handle 9 and caches it. -/
theorem C5_cache_eviction_witness :
    (get_reddit_client witnessProbeDead 9 "t" witnessCacheStale).result = .ok 9 ∧
    (get_reddit_client witnessProbeDead 9 "t" witnessCacheStale).cache
      (cache_key_plain "t") = some 9 :=
  ((C5_cache_eviction witnessProbeDead 9 5 "t" none none none witnessCacheStale
      (fun u h => by simp [witnessProbeDead] at h) (by decide)).1
    (by decide)).2.1 "someone" (by decide)

/-- C6.  Cache idempotence.  For either authenticator, when the cache holds a
live handle under the request's key, the invocation returns exactly that
handle, leaves the cache unchanged, performs exactly one liveness probe and
constructs no client; a second sequential invocation therefore behaves
identically, returning the same handle instance. -/
theorem C6_cache_idempotence (probe : Handle → ProbeResult) (fresh h : Handle)
    (tok : String) (cid csec cua : Option String) (cache : ClientCache) (u : String)
    (hu : probe h = .found u) :
    (cache (cache_key_plain tok) = some h →
      get_reddit_client probe fresh tok cache =
        { result := .ok h, cache := cache, probes := 1, constructed := none } ∧
      get_reddit_client probe fresh tok (get_reddit_client probe fresh tok cache).cache =
        { result := .ok h, cache := cache, probes := 1, constructed := none }) ∧
    (cache (cache_key_with_headers tok cid) = some h →
      get_reddit_client_with_headers probe fresh tok cid csec cua cache =
        { result := .ok h, cache := cache, probes := 1, constructed := none } ∧
      get_reddit_client_with_headers probe fresh tok cid csec cua
          (get_reddit_client_with_headers probe fresh tok cid csec cua cache).cache =
        { result := .ok h, cache := cache, probes := 1, constructed := none }) := by
  constructor
  · intro hin
    have h1 : get_reddit_client probe fresh tok cache =
        { result := .ok h, cache := cache, probes := 1, constructed := none } := by
      simp [get_reddit_client, hin, hu]
    exact ⟨h1, by rw [h1]; exact h1⟩
  · intro hin
    have h1 : get_reddit_client_with_headers probe fresh tok cid csec cua cache =
        { result := .ok h, cache := cache, probes := 1, constructed := none } := by
      simp [get_reddit_client_with_headers, hin, hu]
    exact ⟨h1, by rw [h1]; exact h1⟩

/-- C6, witness: live handle 7 cached under the key of bearer "t" is returned
unchanged with one probe and no construction. -/
theorem C6_cache_idempotence_witness :
    get_reddit_client witnessProbeLive 9 "t" witnessCacheLive =
      { result := .ok 7, cache := witnessCacheLive, probes := 1, constructed := none } :=
  ((C6_cache_idempotence witnessProbeLive 9 7 "t" none none none witnessCacheLive
      "someone" rfl).1 (by decide)).1

/-- C9.  Cache key derivation is a deterministic function of the first 16
characters of the bearer value and, through the optional client-id header, of
that header's first 8 characters: two requests agreeing on those projections
derive the same key, for both authenticators. -/
theorem C9_cache_key_determinism (b1 b2 : String) (c1 c2 : Option String)
    (hb : pyTake 16 b1 = pyTake 16 b2)
    (hc : c1.map (pyTake 8) = c2.map (pyTake 8)) :
    cache_key_with_headers b1 c1 = cache_key_with_headers b2 c2 ∧
    cache_key_plain b1 = cache_key_plain b2 := by
  refine ⟨?_, by simp [cache_key_plain, hb]⟩
  cases c1 with
  | none =>
    cases c2 with
    | none => simp [cache_key_with_headers, truthy, hb]
    | some s2 => simp at hc
  | some s1 =>
    cases c2 with
    | none => simp at hc
    | some s2 =>
      have ht : pyTake 8 s1 = pyTake 8 s2 := by simpa using hc
      by_cases h1 : s1 = ""
      · have h2 : s2 = "" := (pyTake_eq_empty_iff 8 (by omega) s2).mp
          (by rw [← ht]; exact (pyTake_eq_empty_iff 8 (by omega) s1).mpr h1)
        subst h1; subst h2
        simp [cache_key_with_headers, truthy, hb]
      · have h2 : s2 ≠ "" := fun hh =>
          h1 ((pyTake_eq_empty_iff 8 (by omega) s1).mp
            (by rw [ht]; exact (pyTake_eq_empty_iff 8 (by omega) s2).mpr hh))
        simp [cache_key_with_headers, truthy, h1, h2, hb, ht]

/-- C9, witness: two bearer values sharing their first 16 characters and two
client-id headers sharing their first 8 characters derive the same key. -/
theorem C9_cache_key_determinism_witness :
    cache_key_with_headers "abcdefghijklmnopQQQ" (some "12345678xx") =
      cache_key_with_headers "abcdefghijklmnopZZZ" (some "12345678yy") :=
  (C9_cache_key_determinism "abcdefghijklmnopQQQ" "abcdefghijklmnopZZZ"
    (some "12345678xx") (some "12345678yy") (by decide) (by decide)).1

/-- C10, counterexample.  With the client-id header present but empty (a
falsy value in Python), the derived cache key does NOT incorporate the app-id
prefix: it equals the key derived with the header absent, and differs from
the key shape that appends the underscore and app-id prefix.  The claim as
stated (key incorporation for every present header) fails at this input. -/
theorem C10_empty_cid_counterexample :
    cache_key_with_headers "sometoken12345678" (some "") =
      cache_key_with_headers "sometoken12345678" none ∧
    cache_key_with_headers "sometoken12345678" (some "") ≠
      "reddit_" ++ pyTake 16 "sometoken12345678" ++ "_" ++ pyTake 8 "" :=
  ⟨by decide, by decide⟩

/-- C10, amended.  When the client-id header is truthy (present and nonempty)
but the client-secret header is absent or empty, the cache key incorporates
the first 8 characters of the client-id, yet any client construction performed
by the call is in token-only mode; credentialed construction occurs only when
both the client-id and client-secret headers are truthy. -/
theorem C10_header_asymmetry (b : String) (cid csec cua : Option String)
    (probe : Handle → ProbeResult) (fresh : Handle) (cache : ClientCache)
    (h1 : truthy cid = true) (h2 : truthy csec = false) :
    cache_key_with_headers b cid =
      "reddit_" ++ pyTake 16 b ++ "_" ++ pyTake 8 (cid.getD "") ∧
    (get_reddit_client_with_headers probe fresh b cid csec cua cache).constructed ≠
      some ConstructionMode.credentialed ∧
    (∀ (b' : String) (cid' csec' cua' : Option String)
      (probe' : Handle → ProbeResult) (fresh' : Handle) (cache' : ClientCache),
      (get_reddit_client_with_headers probe' fresh' b' cid' csec' cua' cache').constructed =
        some ConstructionMode.credentialed →
      truthy cid' = true ∧ truthy csec' = true) := by
  refine ⟨by simp [cache_key_with_headers, h1], ?_, ?_⟩
  · rcases constructed_mode_shape probe fresh b cid csec cua cache with hs | hs <;>
      simp [hs, h1, h2]
  · intro b' cid' csec' cua' probe' fresh' cache' hcon
    rcases constructed_mode_shape probe' fresh' b' cid' csec' cua' cache' with hs | hs
    · simp [hs] at hcon
    · rw [hs] at hcon
      cases ha : truthy cid' <;> cases hb : truthy csec' <;> simp_all

/-- C10, witness: with client-id "app" and no client-secret, the key appends
the app-id prefix while construction stays token-only. -/
theorem C10_header_asymmetry_witness :
    cache_key_with_headers "tok" (some "app") =
      "reddit_" ++ pyTake 16 "tok" ++ "_" ++ pyTake 8 "app" ∧
    (get_reddit_client_with_headers witnessProbeLive 9 "tok" (some "app") none none
      (fun _ => none)).constructed ≠ some ConstructionMode.credentialed :=
  ⟨(C10_header_asymmetry "tok" (some "app") none none witnessProbeLive 9
      (fun _ => none) (by decide) (by decide)).1,
   (C10_header_asymmetry "tok" (some "app") none none witnessProbeLive 9
      (fun _ => none) (by decide) (by decide)).2.1⟩

/-! ## Claims about the validation endpoint and flow resource closure -/

/-- C2.  The mounted token-validation operation (auth_endpoints.py, POST
/auth/validate) never raises: for every construction outcome and every probe
outcome its result is a data-valued response.  On probe success the response
is valid:true with the five user fields; on any failure of the try-block the
except-handler returns valid:false with the exception text as a non-empty
error message (non-empty whenever the underlying exception text is). -/
theorem C2_validate_never_raises (construct : Except String Unit) (me : UserResult) :
    (∃ r, validate_token construct me = .ok r) ∧
    (∀ u, construct = .ok () → me = .user u →
      validate_token construct me = .ok
        { valid := true, username := some u.name, user_id := some u.id,
          created_utc := some u.created_utc, comment_karma := some u.comment_karma,
          link_karma := some u.link_karma, error := none }) ∧
    (∀ m, validate_token_try construct me = .error m →
      validate_token construct me = .ok
        { valid := false, username := none, user_id := none, created_utc := none,
          comment_karma := none, link_karma := none, error := some m } ∧
      (m ≠ "" → some m ≠ some "")) := by
  refine ⟨?_, ?_, ?_⟩
  · cases construct with
    | error m => exact ⟨_, rfl⟩
    | ok uu => cases me <;> exact ⟨_, rfl⟩
  · intro u hc hm
    subst hc; subst hm
    simp [validate_token, validate_token_try]
  · intro m hm
    refine ⟨by simp [validate_token, hm], fun hne => by simpa using hne⟩

/-- C2, witness: a raised probe exception yields the valid:false data
response carrying the exception text. -/
theorem C2_validate_never_raises_witness :
    validate_token (.ok ()) (.raises "401 Unauthorized") = .ok
      { valid := false, username := none, user_id := none, created_utc := none,
        comment_karma := none, link_karma := none,
        error := some "401 Unauthorized" } :=
  ((C2_validate_never_raises (.ok ()) (.raises "401 Unauthorized")).2.2
    "401 Unauthorized" rfl).1

/-- C7.  The backup OAuth2 callback flow violates scoped acquisition: when the
code-for-token exchange (reddit.auth.authorize) raises, the generic
except-handler propagates an HTTP 500 while the constructed transient client
is never closed — the flow exits with closed = false.  The mounted callback
and the refresh-token login close their client on every exit path, so the
claim fails precisely on this backup flow. -/
theorem C7_backup_callback_leak :
    (oauth2_callback_backup (.error "invalid_grant error processing request")
        (.ok "someone") "i" "s" "a" 0).closed = false ∧
    (oauth2_callback_backup (.error "invalid_grant error processing request")
        (.ok "someone") "i" "s" "a" 0).outcome =
      .error ⟨500, "OAuth2 callback failed: invalid_grant error processing request"⟩ ∧
    (∀ (authorize : Except String Unit) (me : Except String (Option String))
      (at' : String) (rt : Option String) (sc : List String),
      (oauth2_callback authorize me at' rt sc).closed = true) ∧
    (∀ (me : Except String String) (ci cs ua rt : String) (now : Nat),
      (login_with_refresh_token me ci cs ua rt now).closed = true) := by
  refine ⟨rfl, rfl, ?_, ?_⟩
  · intro authorize me at' rt sc
    cases authorize with
    | error m => rfl
    | ok uu => cases me <;> rfl
  · intro me ci cs ua rt now
    cases me <;> rfl

/-! ## Lemmas about url-encoding and token_urlsafe -/

theorem b64_getD_mem : ∀ j : Fin 64, B64_ALPHABET.getD j.val 'A' ∈ B64_ALPHABET := by decide

theorem b64char_mem (i : Nat) : b64char i ∈ B64_ALPHABET := by
  have h : i % 64 < 64 := Nat.mod_lt _ (by norm_num)
  exact b64_getD_mem ⟨i % 64, h⟩

theorem b64encode_mem (bs : List Nat) : ∀ c ∈ b64encode bs, c ∈ B64_ALPHABET := by
  induction bs using b64encode.induct <;> simp_all [b64encode, b64char_mem]

theorem b64_safe : ∀ c ∈ B64_ALPHABET, c ∈ SAFE_CHARS := by decide

theorem b64encode_length (bs : List Nat) :
    (b64encode bs).length =
      4 * (bs.length / 3) + (if bs.length % 3 = 0 then 0 else bs.length % 3 + 1) := by
  induction bs using b64encode.induct <;> simp [b64encode, *] <;> split_ifs <;> omega

theorem quote_plus_of_safe (cs : List Char) (h : ∀ c ∈ cs, c ∈ SAFE_CHARS) :
    quote_plus (String.mk cs) = String.mk cs := by
  unfold quote_plus
  congr 1
  induction cs with
  | nil => rfl
  | cons c rest ih =>
    have hc : c ∈ SAFE_CHARS := h c (List.mem_cons_self c rest)
    simp [quoteChar, hc, ih (fun x hx => h x (List.mem_cons_of_mem c hx))]

theorem quote_plus_token_urlsafe (bs : List Nat) :
    quote_plus (token_urlsafe bs) = token_urlsafe bs := by
  apply quote_plus_of_safe
  intro c hc
  exact b64_safe c (b64encode_mem bs c hc)

theorem c8_url_natural (csec ua : String) (bytes : List Nat) :
    (get_authorization_url (c8Request csec ua) (token_urlsafe bytes)).authorization_url =
    "https://www.reddit.com/api/v1/authorize" ++ "?" ++
      ("client_id=cid" ++ "&" ++
        ("response_type=code" ++ "&" ++
          (("state=" ++ quote_plus (token_urlsafe bytes)) ++ "&" ++
            ("redirect_uri=http%3A%2F%2Flocalhost%3A8080" ++ "&" ++
              ("duration=permanent" ++ "&" ++ "scope=%2A"))))) := rfl

/-- C8.  For the claim's concrete input with no state supplied, the generated
URL contains the query parameters client_id=cid, response_type=code,
redirect_uri=http%3A%2F%2Flocalhost%3A8080, duration=permanent and scope=%2A;
the state parameter embedded in the URL equals the state field of the
response, and that state (secrets.token_urlsafe on 32 random bytes) is at
least 32 characters long (exactly 43). -/
theorem C8_authorization_url (csec ua : String) (bytes : List Nat)
    (hlen : bytes.length = 32) :
    (get_authorization_url (c8Request csec ua) (token_urlsafe bytes)).state =
      token_urlsafe bytes ∧
    32 ≤ (get_authorization_url (c8Request csec ua) (token_urlsafe bytes)).state.length ∧
    (∃ pre post,
      (get_authorization_url (c8Request csec ua) (token_urlsafe bytes)).authorization_url =
        pre ++ "client_id=cid" ++ post) ∧
    (∃ pre post,
      (get_authorization_url (c8Request csec ua) (token_urlsafe bytes)).authorization_url =
        pre ++ "response_type=code" ++ post) ∧
    (∃ pre post,
      (get_authorization_url (c8Request csec ua) (token_urlsafe bytes)).authorization_url =
        pre ++ "redirect_uri=http%3A%2F%2Flocalhost%3A8080" ++ post) ∧
    (∃ pre post,
      (get_authorization_url (c8Request csec ua) (token_urlsafe bytes)).authorization_url =
        pre ++ "duration=permanent" ++ post) ∧
    (∃ pre post,
      (get_authorization_url (c8Request csec ua) (token_urlsafe bytes)).authorization_url =
        pre ++ "scope=%2A" ++ post) ∧
    (∃ pre post,
      (get_authorization_url (c8Request csec ua) (token_urlsafe bytes)).authorization_url =
        pre ++ ("state=" ++ (get_authorization_url (c8Request csec ua)
          (token_urlsafe bytes)).state ++ "&") ++ post) := by
  have h1 := c8_url_natural csec ua bytes
  rw [quote_plus_token_urlsafe] at h1
  have hslen : 32 ≤ (token_urlsafe bytes).length := by
    have h : (token_urlsafe bytes).length = (b64encode bytes).length := rfl
    rw [h, b64encode_length, hlen]
    norm_num
  refine ⟨rfl, hslen, ?_, ?_, ?_, ?_, ?_, ?_⟩
  · refine ⟨"https://www.reddit.com/api/v1/authorize?",
      "&response_type=code&state=" ++ token_urlsafe bytes ++
        "&redirect_uri=http%3A%2F%2Flocalhost%3A8080&duration=permanent&scope=%2A",
      string_data_inj ?_⟩
    rw [h1]
    simp only [String.data_append, List.append_assoc]
    rfl
  · refine ⟨"https://www.reddit.com/api/v1/authorize?client_id=cid&",
      "&state=" ++ token_urlsafe bytes ++
        "&redirect_uri=http%3A%2F%2Flocalhost%3A8080&duration=permanent&scope=%2A",
      string_data_inj ?_⟩
    rw [h1]
    simp only [String.data_append, List.append_assoc]
    rfl
  · refine ⟨"https://www.reddit.com/api/v1/authorize?client_id=cid&response_type=code&state=" ++
        token_urlsafe bytes ++ "&",
      "&duration=permanent&scope=%2A",
      string_data_inj ?_⟩
    rw [h1]
    simp only [String.data_append, List.append_assoc]
    rfl
  · refine ⟨"https://www.reddit.com/api/v1/authorize?client_id=cid&response_type=code&state=" ++
        token_urlsafe bytes ++ "&redirect_uri=http%3A%2F%2Flocalhost%3A8080&",
      "&scope=%2A",
      string_data_inj ?_⟩
    rw [h1]
    simp only [String.data_append, List.append_assoc]
    rfl
  · refine ⟨"https://www.reddit.com/api/v1/authorize?client_id=cid&response_type=code&state=" ++
        token_urlsafe bytes ++
        "&redirect_uri=http%3A%2F%2Flocalhost%3A8080&duration=permanent&",
      "",
      string_data_inj ?_⟩
    rw [h1]
    simp only [String.data_append, List.append_assoc]
    rfl
  · refine ⟨"https://www.reddit.com/api/v1/authorize?client_id=cid&response_type=code&",
      "redirect_uri=http%3A%2F%2Flocalhost%3A8080&duration=permanent&scope=%2A",
      string_data_inj ?_⟩
    rw [h1]
    simp only [String.data_append, List.append_assoc]
    rfl

/-- C8, witness at a concrete 32-byte random input. -/
theorem C8_authorization_url_witness :
    (get_authorization_url (c8Request "s" "u")
        (token_urlsafe (List.replicate 32 0))).state =
      token_urlsafe (List.replicate 32 0) ∧
    32 ≤ (get_authorization_url (c8Request "s" "u")
        (token_urlsafe (List.replicate 32 0))).state.length :=
  ⟨(C8_authorization_url "s" "u" (List.replicate 32 0) (by decide)).1,
   (C8_authorization_url "s" "u" (List.replicate 32 0) (by decide)).2.1⟩
